import Mathlib

/-!
Verification development for the AtmosTrack classifier service
(`src/Backend/ai_server.py`).  Python floats are modelled as exact
rationals (`ℚ`); the loaded scikit-learn model is abstracted as a
function from the feature vector to a list of class probabilities,
since the service treats it as an opaque black box.  Python operations
that can raise (`np.argmax` on an empty array, list indexing out of
bounds) are modelled with `Option`.
-/

namespace AtmosTrack

/-- `SOURCES = ["Vehicle", "Industry", "Construction", "Clean"]` — the fixed
class-label list from `ai_server.py`. -/
def SOURCES : List String := ["Vehicle", "Industry", "Construction", "Clean"]

/-- `MODEL_ACCURACY = 95.2` — the hardcoded accuracy constant from
`ai_server.py`. -/
def MODEL_ACCURACY : ℚ := 95.2

/-- The pydantic request schema `FeatureInput`: six float fields and one
integer field, in the declared order. -/
structure FeatureInput where
  VOC_avg : ℚ
  VOC_std : ℚ
  CO2_avg : ℚ
  CO2_std : ℚ
  Vibration_amp : ℚ
  Vibration_freq : ℚ
  Hour : ℤ
  deriving DecidableEq

/-- The JSON dictionary returned by `classify_source`. -/
structure PredictionResult where
  label : String
  confidence : ℚ
  modelAccuracy : ℚ
  deriving DecidableEq

/-- The row vector `x` assembled in `classify_source` (lines 30–38):
the seven scalar fields in their fixed order, `Hour` cast to a number. -/
def featureVector (data : FeatureInput) : List ℚ :=
  [data.VOC_avg, data.VOC_std, data.CO2_avg, data.CO2_std,
   data.Vibration_amp, data.Vibration_freq, (data.Hour : ℚ)]

/-- A loaded model, abstracted at its boundary: `predict_proba` on a single
row, i.e. a function from the feature vector to the list of per-class
probabilities. -/
def Model : Type := List ℚ → List ℚ

/-- `np.argmax`: the index of the first occurrence of the maximum element.
(`np.argmax` raises on an empty array; the `[]` case here is never used by
`classify_source`, which returns `none` for an empty distribution.) -/
def argmax : List ℚ → ℕ
  | [] => 0
  | [_] => 0
  | x :: y :: xs =>
    let j := argmax (y :: xs)
    if x < (y :: xs).getD j 0 then j + 1 else 0

/-- Python 3 `round` to the nearest integer: round-half-to-even
(banker's rounding). -/
def roundHalfEven (q : ℚ) : ℤ :=
  let n := Int.floor q
  let r := q - n
  if r < 1/2 then n
  else if 1/2 < r then n + 1
  else if 2 ∣ n then n else n + 1

/-- Python `round(q, 1)`: round to one decimal place. -/
def round1 (q : ℚ) : ℚ := (roundHalfEven (q * 10) : ℚ) / 10

/-- The handler `classify_source` (lines 27–53): compute the probability
distribution, take its argmax, look the index up in `SOURCES`, clamp the
selected probability to `[0, 1]`, scale to a percentage and round to one
decimal.  `none` models an uncaught exception (empty distribution at
`np.argmax`, or `SOURCES[idx]` out of bounds). -/
def classify_source (model : Model) (data : FeatureInput) : Option PredictionResult :=
  let proba := model (featureVector data)
  if proba.isEmpty then none
  else
    let idx := argmax proba
    match SOURCES[idx]? with
    | none => none
    | some label =>
      match proba[idx]? with
      | none => none
      | some p =>
        let raw_conf := max 0 (min 1 p)
        let confidence := raw_conf * 100
        some { label := label, confidence := round1 confidence,
               modelAccuracy := MODEL_ACCURACY }

/-- A JSON scalar value in a request body. -/
inductive JVal
  | jnum (q : ℚ)
  | jstr (s : String)
  | jbool (b : Bool)
  | jnull
  deriving DecidableEq

/-- Modelled from the spec: the HTTP host framework (FastAPI/pydantic) is
"responsible for request parsing, route dispatch, and structural validation
of the JSON body against the FeatureRecord shape before the core logic
runs"; this coercion accepts a JSON number for a float field and rejects a
value of the wrong type (e.g. a non-numeric string such as `"five"`). -/
def coerceFloat : JVal → Option ℚ
  | .jnum q => some q
  | _ => none

/-- Modelled from the spec: coercion of a JSON value to the integer field
`Hour`; a JSON number with no fractional part is accepted, anything else is
a type error. -/
def coerceInt : JVal → Option ℤ
  | .jnum q => if q.den = 1 then some q.num else none
  | _ => none

/-- Look up a required float field in the request body, reporting the
offending field on failure. -/
def getFloatField (body : List (String × JVal)) (name : String) : Except String ℚ :=
  match body.lookup name with
  | none => .error (name ++ ": field required")
  | some v =>
    match coerceFloat v with
    | none => .error (name ++ ": value is not a valid float")
    | some q => .ok q

/-- Look up the required integer field in the request body, reporting the
offending field on failure. -/
def getIntField (body : List (String × JVal)) (name : String) : Except String ℤ :=
  match body.lookup name with
  | none => .error (name ++ ": field required")
  | some v =>
    match coerceInt v with
    | none => .error (name ++ ": value is not a valid integer")
    | some n => .ok n

/-- Modelled from the spec: pydantic validation of the JSON body against
`FeatureInput` — every field is required and must coerce to its declared
type; the first offending field is reported as a client error. -/
def parseFeatureInput (body : List (String × JVal)) : Except String FeatureInput := do
  let v1 ← getFloatField body "VOC_avg"
  let v2 ← getFloatField body "VOC_std"
  let v3 ← getFloatField body "CO2_avg"
  let v4 ← getFloatField body "CO2_std"
  let v5 ← getFloatField body "Vibration_amp"
  let v6 ← getFloatField body "Vibration_freq"
  let h ← getIntField body "Hour"
  return { VOC_avg := v1, VOC_std := v2, CO2_avg := v3, CO2_std := v4,
           Vibration_amp := v5, Vibration_freq := v6, Hour := h }

/-- An HTTP response of the service: a JSON result, a 422 validation error,
or a 500 internal error. -/
inductive Response
  | ok (r : PredictionResult)
  | clientError (msg : String)
  | serverError
  deriving DecidableEq

/-- The full request path for `POST /classify`: framework validation first
(modelled from the spec), then the handler `classify_source`; an uncaught
exception in the handler surfaces as a server error. -/
def handleRequest (model : Model) (body : List (String × JVal)) : Response :=
  match parseFeatureInput body with
  | .error msg => .clientError msg
  | .ok data =>
    match classify_source model data with
    | none => .serverError
    | some r => .ok r

/-- The service processing a sequence of independent requests against the
single read-only loaded model. -/
def serve (model : Model) (reqs : List (List (String × JVal))) : List Response :=
  reqs.map (handleRequest model)

/-- A well-formed request body with the given field values, `Hour` sent as
a JSON integer. -/
def mkBody (v1 v2 v3 v4 v5 v6 : ℚ) (hour : ℤ) : List (String × JVal) :=
  [("VOC_avg", .jnum v1), ("VOC_std", .jnum v2), ("CO2_avg", .jnum v3),
   ("CO2_std", .jnum v4), ("Vibration_amp", .jnum v5),
   ("Vibration_freq", .jnum v6), ("Hour", .jnum (hour : ℚ))]

/-- A model exhibiting an exact tie between the first two classes. -/
def tieModel : Model := fun _ => [0.3, 0.3, 0.2, 0.2]

/-- A model whose selected probability lies outside `[0, 1]`, exercising the
clamp in `classify_source`. -/
def bigProbModel : Model := fun _ => [1.5, 0.2, 0.1, 0.1]

/-- A model returning five probabilities with the maximum at index 4,
beyond the bounds of `SOURCES`. -/
def fiveClassModel : Model := fun _ => [0, 0, 0, 0, 1]

/-- A request body whose `Hour` field is the non-numeric string `"five"`. -/
def badBody : List (String × JVal) :=
  [("VOC_avg", .jnum 1.2), ("VOC_std", .jnum 0.3), ("CO2_avg", .jnum 410),
   ("CO2_std", .jnum 5), ("Vibration_amp", .jnum 0.01),
   ("Vibration_freq", .jnum 12), ("Hour", .jstr "five")]

/-- A well-formed request body carrying the example input. -/
def goodBody : List (String × JVal) := mkBody 1.2 0.3 410 5 0.01 12 14

/-- The example input from the spec:
`{VOC_avg:1.2, VOC_std:0.3, CO2_avg:410, CO2_std:5, Vibration_amp:0.01,
Vibration_freq:12, Hour:14}`. -/
def exampleData : FeatureInput :=
  { VOC_avg := 1.2, VOC_std := 0.3, CO2_avg := 410, CO2_std := 5,
    Vibration_amp := 0.01, Vibration_freq := 12, Hour := 14 }

/-- A model that returns the probabilities `[0.1, 0.05, 0.05, 0.8]` from
the spec's example, whatever the input vector. -/
def exampleModel : Model := fun _ => [0.1, 0.05, 0.05, 0.8]

/-- A model that agrees with `exampleModel` on the example's feature vector
but behaves differently everywhere else. -/
def shadowModel : Model :=
  fun v => if v = featureVector exampleData then [0.1, 0.05, 0.05, 0.8] else []

/- ========================= Lemmas and theorems ========================= -/

/-- Unfolding equation for `argmax` on a list of length at least two. -/
theorem argmax_cons_cons (x y : ℚ) (xs : List ℚ) :
    argmax (x :: y :: xs) =
      if x < (y :: xs).getD (argmax (y :: xs)) 0 then argmax (y :: xs) + 1 else 0 := rfl

/-- `argmax` of a nonempty list is a valid index. -/
theorem argmax_lt_length : ∀ (l : List ℚ), l ≠ [] → argmax l < l.length
  | [], h => absurd rfl h
  | [_], _ => by simp [argmax]
  | x :: y :: xs, _ => by
    have ih := argmax_lt_length (y :: xs) (by simp)
    rw [argmax_cons_cons]
    split
    · simpa using Nat.succ_lt_succ ih
    · simp

/-- The element at `argmax l` is maximal. -/
theorem getD_le_getD_argmax :
    ∀ (l : List ℚ) (j : ℕ), j < l.length → l.getD j 0 ≤ l.getD (argmax l) 0
  | [], _, h => absurd h (by simp)
  | [_], 0, _ => le_refl _
  | [_], _ + 1, h => absurd h (by simp)
  | x :: y :: xs, j, h => by
    have ih := getD_le_getD_argmax (y :: xs)
    rw [argmax_cons_cons]
    split
    case isTrue h1 =>
      rw [List.getD_cons_succ]
      match j with
      | 0 => rw [List.getD_cons_zero]; exact le_of_lt h1
      | k + 1 =>
        rw [List.getD_cons_succ]
        exact ih k (by simpa using h)
    case isFalse h1 =>
      rw [List.getD_cons_zero]
      match j with
      | 0 => rw [List.getD_cons_zero]
      | k + 1 =>
        rw [List.getD_cons_succ]
        exact le_trans (ih k (by simpa using h)) (not_lt.mp h1)

/-- Every index strictly before `argmax l` holds a strictly smaller value:
`argmax` returns the first occurrence of the maximum. -/
theorem getD_lt_getD_argmax :
    ∀ (l : List ℚ) (j : ℕ), j < argmax l → l.getD j 0 < l.getD (argmax l) 0
  | [], _, h => absurd h (by simp [argmax])
  | [_], _, h => absurd h (by simp [argmax])
  | x :: y :: xs, j, h => by
    have ih := getD_lt_getD_argmax (y :: xs)
    rw [argmax_cons_cons] at h ⊢
    by_cases h1 : x < (y :: xs).getD (argmax (y :: xs)) 0
    · rw [if_pos h1] at h ⊢
      rw [List.getD_cons_succ]
      match j, h with
      | 0, _ => rw [List.getD_cons_zero]; exact h1
      | k + 1, h =>
        rw [List.getD_cons_succ]
        exact ih k (Nat.lt_of_succ_lt_succ h)
    · rw [if_neg h1] at h
      exact absurd h (Nat.not_lt_zero j)

/-- In-bounds `getElem?` produces the `getD` value. -/
theorem getElem?_eq_some_getD {α : Type} (l : List α) (i : ℕ) (d : α) (h : i < l.length) :
    l[i]? = some (l.getD i d) := by
  rw [List.getD_eq_getElem?_getD, List.getElem?_eq_getElem h]
  rfl

/-- Closed form of `classify_source` when the argmax index is in bounds. -/
theorem classify_source_eq (model : Model) (data : FeatureInput)
    (hne : model (featureVector data) ≠ [])
    (hidx : argmax (model (featureVector data)) < 4) :
    classify_source model data = some
      { label := SOURCES.getD (argmax (model (featureVector data))) "",
        confidence := round1 (max 0 (min 1 ((model (featureVector data)).getD
          (argmax (model (featureVector data))) 0)) * 100),
        modelAccuracy := MODEL_ACCURACY } := by
  have hlen := argmax_lt_length (model (featureVector data)) hne
  simp only [classify_source]
  rw [getElem?_eq_some_getD SOURCES _ "" (by simpa [SOURCES] using hidx),
      getElem?_eq_some_getD (model (featureVector data)) _ 0 hlen]
  simp [List.isEmpty_iff, hne]

/-- `classify_source` fails when the argmax index falls outside `SOURCES`. -/
theorem classify_none_of_ge (model : Model) (data : FeatureInput)
    (hge : 4 ≤ argmax (model (featureVector data))) :
    classify_source model data = none := by
  simp only [classify_source]
  have hnone : SOURCES[argmax (model (featureVector data))]? = none := by
    rw [List.getElem?_eq_none_iff]
    simpa [SOURCES] using hge
  rw [hnone]
  split <;> rfl

/-- Inversion: a successful response determines its exact shape. -/
theorem classify_some_inv (model : Model) (data : FeatureInput) (r : PredictionResult)
    (h : classify_source model data = some r) :
    model (featureVector data) ≠ [] ∧
    argmax (model (featureVector data)) < 4 ∧
    r = { label := SOURCES.getD (argmax (model (featureVector data))) "",
          confidence := round1 (max 0 (min 1 ((model (featureVector data)).getD
            (argmax (model (featureVector data))) 0)) * 100),
          modelAccuracy := MODEL_ACCURACY } := by
  have hne : model (featureVector data) ≠ [] := by
    intro hnil
    rw [classify_source] at h
    simp [hnil] at h
  have hidx : argmax (model (featureVector data)) < 4 := by
    by_contra hge
    push_neg at hge
    rw [classify_none_of_ge model data hge] at h
    exact Option.noConfusion h
  refine ⟨hne, hidx, ?_⟩
  rw [classify_source_eq model data hne hidx] at h
  exact (Option.some_inj.mp h).symm

/-- `roundHalfEven` never rounds below an integer lower bound. -/
theorem le_roundHalfEven (a : ℤ) (q : ℚ) (h : (a : ℚ) ≤ q) : a ≤ roundHalfEven q := by
  have hf : a ≤ ⌊q⌋ := Int.le_floor.mpr h
  simp only [roundHalfEven]
  split_ifs <;> omega

/-- `roundHalfEven` never rounds above an integer upper bound. -/
theorem roundHalfEven_le (b : ℤ) (q : ℚ) (h : q ≤ (b : ℚ)) : roundHalfEven q ≤ b := by
  have hfb : ⌊q⌋ ≤ b := by simpa using Int.floor_le_floor h
  have hfl : (⌊q⌋ : ℚ) ≤ q := Int.floor_le q
  simp only [roundHalfEven]
  split_ifs with h1 h2 h3
  · exact hfb
  · have hq : (⌊q⌋ : ℚ) < q := by linarith
    have : ⌊q⌋ < b := by exact_mod_cast lt_of_lt_of_le hq h
    omega
  · exact hfb
  · have hq : (⌊q⌋ : ℚ) < q := by
      push_neg at h1
      linarith
    have : ⌊q⌋ < b := by exact_mod_cast lt_of_lt_of_le hq h
    omega

/-- Rounding to one decimal preserves a lower bound of zero. -/
theorem round1_nonneg (q : ℚ) (h : 0 ≤ q) : 0 ≤ round1 q := by
  have h0 : (0 : ℤ) ≤ roundHalfEven (q * 10) :=
    le_roundHalfEven 0 (q * 10) (by push_cast; linarith)
  simp only [round1]
  have : (0 : ℚ) ≤ (roundHalfEven (q * 10) : ℚ) := by exact_mod_cast h0
  positivity

/-- Rounding to one decimal preserves an upper bound of one hundred. -/
theorem round1_le_hundred (q : ℚ) (h : q ≤ 100) : round1 q ≤ 100 := by
  have h0 : roundHalfEven (q * 10) ≤ 1000 :=
    roundHalfEven_le 1000 (q * 10) (by push_cast; linarith)
  simp only [round1]
  rw [div_le_iff₀ (by norm_num : (0:ℚ) < 10)]
  calc (roundHalfEven (q * 10) : ℚ) ≤ 1000 := by exact_mod_cast h0
    _ = 100 * 10 := by norm_num

/-- Response `i` of a served batch is the handler applied to request `i`. -/
theorem serve_getD (model : Model) (reqs : List (List (String × JVal))) (i : ℕ)
    (hi : i < reqs.length) :
    (serve model reqs).getD i Response.serverError = handleRequest model (reqs.getD i []) := by
  simp only [serve]
  rw [List.getD_eq_getElem?_getD, List.getElem?_map, List.getD_eq_getElem?_getD,
      List.getElem?_eq_getElem hi]
  rfl

/-- A well-formed body parses to the corresponding record, whatever the
value of `Hour`. -/
theorem parse_mkBody (v1 v2 v3 v4 v5 v6 : ℚ) (hour : ℤ) :
    parseFeatureInput (mkBody v1 v2 v3 v4 v5 v6 hour) =
      .ok { VOC_avg := v1, VOC_std := v2, CO2_avg := v3, CO2_std := v4,
            Vibration_amp := v5, Vibration_freq := v6, Hour := hour } := by
  simp [parseFeatureInput, mkBody, getFloatField, getIntField, List.lookup,
    coerceFloat, coerceInt, Rat.den_intCast, Rat.num_intCast, bind, Except.bind,
    pure, Except.pure]

/-- The body with `Hour = "five"` fails validation at the `Hour` field. -/
theorem parse_badBody :
    parseFeatureInput badBody = .error "Hour: value is not a valid integer" := rfl

/-- A successfully parsed body whose model distribution has its argmax in
bounds yields an `ok` response. -/
theorem handleRequest_ok_of (model : Model) (body : List (String × JVal))
    (data : FeatureInput) (hparse : parseFeatureInput body = .ok data)
    (hne : model (featureVector data) ≠ [])
    (hidx : argmax (model (featureVector data)) < 4) :
    ∃ r, handleRequest model body = Response.ok r := by
  have hc := classify_source_eq model data hne hidx
  unfold handleRequest
  rw [hparse]
  simp only []
  rw [hc]
  exact ⟨_, rfl⟩

/-- Claim C1: for every `FeatureRecord` and every 4-element probability
distribution the model returns for it, `classify_source` succeeds with the
label at the argmax index; that index holds a maximal probability, and
every strictly smaller index holds a strictly smaller probability, so an
exact tie is broken in favour of the lowest index of the fixed class
list. -/
theorem classify_selects_argmax (model : Model) (data : FeatureInput)
    (h4 : (model (featureVector data)).length = 4) :
    ∃ r, classify_source model data = some r ∧
      r.label = SOURCES.getD (argmax (model (featureVector data))) "" ∧
      (∀ j, j < (model (featureVector data)).length →
        (model (featureVector data)).getD j 0 ≤
          (model (featureVector data)).getD (argmax (model (featureVector data))) 0) ∧
      ∀ j, j < argmax (model (featureVector data)) →
        (model (featureVector data)).getD j 0 <
          (model (featureVector data)).getD (argmax (model (featureVector data))) 0 := by
  have hne : model (featureVector data) ≠ [] := by
    intro hnil
    rw [hnil] at h4
    simp at h4
  have hidx : argmax (model (featureVector data)) < 4 := by
    have hl := argmax_lt_length (model (featureVector data)) hne
    rw [h4] at hl
    exact hl
  exact ⟨_, classify_source_eq model data hne hidx, rfl,
    fun j hj => getD_le_getD_argmax _ j hj,
    fun j hj => getD_lt_getD_argmax _ j hj⟩

/-- Witness for C1 on a model with an exact tie between the first two
classes. -/
theorem classify_selects_argmax_witness :
    (tieModel (featureVector exampleData)).length = 4 ∧
    ∃ r, classify_source tieModel exampleData = some r ∧
      r.label = SOURCES.getD (argmax (tieModel (featureVector exampleData))) "" ∧
      (∀ j, j < (tieModel (featureVector exampleData)).length →
        (tieModel (featureVector exampleData)).getD j 0 ≤
          (tieModel (featureVector exampleData)).getD
            (argmax (tieModel (featureVector exampleData))) 0) ∧
      ∀ j, j < argmax (tieModel (featureVector exampleData)) →
        (tieModel (featureVector exampleData)).getD j 0 <
          (tieModel (featureVector exampleData)).getD
            (argmax (tieModel (featureVector exampleData))) 0 :=
  ⟨rfl, classify_selects_argmax tieModel exampleData rfl⟩

/-- Claim C2: for every valid `FeatureRecord`, assuming the model returns a
4-element probability distribution, the label of every successful response
is one of exactly the four strings Vehicle, Industry, Construction,
Clean. -/
theorem classify_label_in_fixed_set (model : Model) (data : FeatureInput)
    (_h4 : (model (featureVector data)).length = 4)
    (r : PredictionResult) (h : classify_source model data = some r) :
    r.label = "Vehicle" ∨ r.label = "Industry" ∨ r.label = "Construction" ∨
      r.label = "Clean" := by
  obtain ⟨-, hidx, hr⟩ := classify_some_inv model data r h
  rw [hr]
  set i := argmax (model (featureVector data)) with hi
  interval_cases i <;> simp [SOURCES]

/-- Witness for C2 at the spec's example input. -/
theorem classify_label_in_fixed_set_witness :
    (exampleModel (featureVector exampleData)).length = 4 ∧
    ∃ r, classify_source exampleModel exampleData = some r ∧
      (r.label = "Vehicle" ∨ r.label = "Industry" ∨ r.label = "Construction" ∨
        r.label = "Clean") := by
  have hEq : classify_source exampleModel exampleData =
      some { label := "Clean", confidence := 80, modelAccuracy := 95.2 } := by
    norm_num [classify_source, exampleModel, exampleData, featureVector, argmax,
      round1, roundHalfEven, SOURCES, MODEL_ACCURACY]
  exact ⟨rfl, _, hEq, classify_label_in_fixed_set exampleModel exampleData rfl _ hEq⟩

/-- Claim C3: for every `FeatureRecord` and every distribution the model
returns (including values outside `[0, 1]`), the confidence of a successful
response equals the selected (argmax) probability clamped to `[0, 1]`,
scaled by 100 and rounded to one decimal place, and it lies in
`[0, 100]`. -/
theorem classify_confidence_spec (model : Model) (data : FeatureInput)
    (r : PredictionResult) (h : classify_source model data = some r) :
    r.confidence = round1 (max 0 (min 1 ((model (featureVector data)).getD
      (argmax (model (featureVector data))) 0)) * 100) ∧
    0 ≤ r.confidence ∧ r.confidence ≤ 100 ∧ ∃ k : ℤ, r.confidence = (k : ℚ) / 10 := by
  obtain ⟨-, -, hr⟩ := classify_some_inv model data r h
  rw [hr]
  set p := (model (featureVector data)).getD (argmax (model (featureVector data))) 0 with hp
  have hc0 : (0 : ℚ) ≤ max 0 (min 1 p) * 100 :=
    mul_nonneg (le_max_left 0 _) (by norm_num)
  have hc1 : max 0 (min 1 p) * 100 ≤ 100 := by
    have h1 : max 0 (min 1 p) ≤ 1 := max_le zero_le_one (min_le_left 1 p)
    linarith
  exact ⟨rfl, round1_nonneg _ hc0, round1_le_hundred _ hc1,
    ⟨roundHalfEven (max 0 (min 1 p) * 100 * 10), rfl⟩⟩

/-- Witness for C3 on a model whose selected probability is `1.5`, outside
`[0, 1]`. -/
theorem classify_confidence_spec_witness :
    ∃ r, classify_source bigProbModel exampleData = some r ∧
      (r.confidence = round1 (max 0 (min 1 ((bigProbModel (featureVector exampleData)).getD
        (argmax (bigProbModel (featureVector exampleData))) 0)) * 100) ∧
      0 ≤ r.confidence ∧ r.confidence ≤ 100 ∧ ∃ k : ℤ, r.confidence = (k : ℚ) / 10) := by
  have hEq : classify_source bigProbModel exampleData =
      some { label := "Vehicle", confidence := 100, modelAccuracy := 95.2 } := by
    norm_num [classify_source, bigProbModel, exampleData, featureVector, argmax,
      round1, roundHalfEven, SOURCES, MODEL_ACCURACY]
  exact ⟨_, hEq, classify_confidence_spec bigProbModel exampleData _ hEq⟩

/-- Claim C4: on the spec's example input, a model returning
`[0.1, 0.05, 0.05, 0.8]` makes `classify_source` return exactly
`{label := "Clean", confidence := 80.0, modelAccuracy := 95.2}`. -/
theorem classify_example_case :
    classify_source exampleModel exampleData =
      some { label := "Clean", confidence := 80.0, modelAccuracy := 95.2 } := by
  norm_num [classify_source, exampleModel, exampleData, featureVector, argmax,
    round1, roundHalfEven, SOURCES, MODEL_ACCURACY]

/-- Claim C5: for every `FeatureRecord` and every model, the
`modelAccuracy` field of every successful response equals the fixed
constant `95.2`, independently of the input and of the predicted
probabilities. -/
theorem modelAccuracy_constant (model : Model) (data : FeatureInput)
    (r : PredictionResult) (h : classify_source model data = some r) :
    r.modelAccuracy = 95.2 := by
  obtain ⟨-, -, hr⟩ := classify_some_inv model data r h
  rw [hr]
  rfl

/-- Witness for C5 on the tie model. -/
theorem modelAccuracy_constant_witness :
    ∃ r, classify_source tieModel exampleData = some r ∧ r.modelAccuracy = 95.2 := by
  have hEq : classify_source tieModel exampleData =
      some { label := "Vehicle", confidence := 30, modelAccuracy := 95.2 } := by
    norm_num [classify_source, tieModel, exampleData, featureVector, argmax,
      round1, roundHalfEven, SOURCES, MODEL_ACCURACY]
  exact ⟨_, hEq, modelAccuracy_constant tieModel exampleData _ hEq⟩

/-- Claim C6: the vector passed to the model is the single 7-element vector
of the record's fields in the fixed order VOC_avg, VOC_std, CO2_avg,
CO2_std, Vibration_amp, Vibration_freq, Hour, and the handler consults the
model only through its value on that vector. -/
theorem featureVector_order (data : FeatureInput) :
    featureVector data = [data.VOC_avg, data.VOC_std, data.CO2_avg, data.CO2_std,
      data.Vibration_amp, data.Vibration_freq, (data.Hour : ℚ)] ∧
    (featureVector data).length = 7 ∧
    ∀ m1 m2 : Model, m1 (featureVector data) = m2 (featureVector data) →
      classify_source m1 data = classify_source m2 data := by
  refine ⟨rfl, rfl, fun m1 m2 hm => ?_⟩
  simp only [classify_source, hm]

/-- Witness for C6: a model agreeing with `exampleModel` only on the
example's feature vector classifies identically. -/
theorem featureVector_order_witness :
    exampleModel (featureVector exampleData) = shadowModel (featureVector exampleData) ∧
    classify_source exampleModel exampleData = classify_source shadowModel exampleData := by
  have hm : exampleModel (featureVector exampleData) =
      shadowModel (featureVector exampleData) := by
    simp [exampleModel, shadowModel]
  exact ⟨hm, (featureVector_order exampleData).2.2 exampleModel shadowModel hm⟩

/-- Claim C7: every request body that fails validation (missing field or a
wrong-typed field that cannot be coerced) is rejected with a client
validation error, and the model is never invoked: the response is the same
for every model. -/
theorem validation_rejects_before_model (body : List (String × JVal)) (msg : String)
    (h : parseFeatureInput body = .error msg) (m1 m2 : Model) :
    handleRequest m1 body = .clientError msg ∧
    handleRequest m1 body = handleRequest m2 body := by
  constructor <;> simp [handleRequest, h]

/-- Witness for C7 on a body whose `Hour` is the string `"five"`. -/
theorem validation_rejects_before_model_witness :
    parseFeatureInput badBody = .error "Hour: value is not a valid integer" ∧
    handleRequest exampleModel badBody =
      .clientError "Hour: value is not a valid integer" ∧
    handleRequest exampleModel badBody = handleRequest fiveClassModel badBody :=
  ⟨parse_badBody,
    validation_rejects_before_model badBody _ parse_badBody exampleModel fiveClassModel⟩

/-- Claim C8: the handler is a pure function of its input and the loaded
model — two requests with identical bodies in a served batch receive
identical responses (same label, confidence and modelAccuracy), with no
hidden randomness or mutable state. -/
theorem serve_deterministic (model : Model) (reqs : List (List (String × JVal)))
    (i j : ℕ) (hi : i < reqs.length) (hj : j < reqs.length)
    (hij : reqs.getD i [] = reqs.getD j []) :
    (serve model reqs).getD i Response.serverError =
      (serve model reqs).getD j Response.serverError := by
  rw [serve_getD model reqs i hi, serve_getD model reqs j hj, hij]

/-- Witness for C8: the same body served twice yields the same response. -/
theorem serve_deterministic_witness :
    0 < ([goodBody, goodBody] : List (List (String × JVal))).length ∧
    1 < ([goodBody, goodBody] : List (List (String × JVal))).length ∧
    [goodBody, goodBody].getD 0 [] = [goodBody, goodBody].getD 1 [] ∧
    (serve exampleModel [goodBody, goodBody]).getD 0 Response.serverError =
      (serve exampleModel [goodBody, goodBody]).getD 1 Response.serverError :=
  ⟨by norm_num, by norm_num, rfl,
    serve_deterministic exampleModel [goodBody, goodBody] 0 1
      (by norm_num) (by norm_num) rfl⟩

/-- Claim C9: for every integer value of `Hour`, including values outside
`0`–`23`, a well-formed body is accepted (no range validation on any
field) and, for a model returning 4 probabilities, yields a normal
result. -/
theorem hour_out_of_range_accepted (v1 v2 v3 v4 v5 v6 : ℚ) (hour : ℤ) (model : Model)
    (h4 : ∀ x, (model x).length = 4) :
    parseFeatureInput (mkBody v1 v2 v3 v4 v5 v6 hour) =
      .ok { VOC_avg := v1, VOC_std := v2, CO2_avg := v3, CO2_std := v4,
            Vibration_amp := v5, Vibration_freq := v6, Hour := hour } ∧
    ∃ r, handleRequest model (mkBody v1 v2 v3 v4 v5 v6 hour) = .ok r := by
  refine ⟨parse_mkBody v1 v2 v3 v4 v5 v6 hour, ?_⟩
  have hne : ∀ data : FeatureInput, model (featureVector data) ≠ [] := by
    intro data hnil
    have hx := h4 (featureVector data)
    rw [hnil] at hx
    simp at hx
  have hidx : ∀ data : FeatureInput, argmax (model (featureVector data)) < 4 := by
    intro data
    have hl := argmax_lt_length (model (featureVector data)) (hne data)
    rw [h4] at hl
    exact hl
  exact handleRequest_ok_of model _ _ (parse_mkBody v1 v2 v3 v4 v5 v6 hour)
    (hne _) (hidx _)

/-- Witness for C9 at the out-of-range hour `-5`. -/
theorem hour_out_of_range_accepted_witness :
    (∀ x, (exampleModel x).length = 4) ∧
    (parseFeatureInput (mkBody 1.2 0.3 410 5 0.01 12 (-5)) =
      .ok { VOC_avg := 1.2, VOC_std := 0.3, CO2_avg := 410, CO2_std := 5,
            Vibration_amp := 0.01, Vibration_freq := 12, Hour := -5 } ∧
     ∃ r, handleRequest exampleModel (mkBody 1.2 0.3 410 5 0.01 12 (-5)) = .ok r) :=
  ⟨fun _ => rfl,
    hour_out_of_range_accepted 1.2 0.3 410 5 0.01 12 (-5) exampleModel (fun _ => rfl)⟩

/-- Claim C10: the label lookup is in bounds exactly when the argmax index
is below 4; when the model returns exactly 4 probabilities the failure
branch is unreachable, and a distribution with its maximum at index 4 or
beyond makes the handler fail instead of returning a label. -/
theorem label_lookup_bounds (model : Model) (data : FeatureInput) :
    ((SOURCES[argmax (model (featureVector data))]?).isSome ↔
      argmax (model (featureVector data)) < 4) ∧
    ((model (featureVector data)).length = 4 →
      (classify_source model data).isSome = true) ∧
    (4 ≤ argmax (model (featureVector data)) →
      classify_source model data = none) := by
  refine ⟨?_, ?_, fun hge => classify_none_of_ge model data hge⟩
  · rw [Option.isSome_iff_exists]
    constructor
    · rintro ⟨a, ha⟩
      have := (List.getElem?_eq_some_iff.mp ha).1
      simpa [SOURCES] using this
    · intro hlt
      exact ⟨_, List.getElem?_eq_getElem (by simpa [SOURCES] using hlt)⟩
  · intro h4
    have hne : model (featureVector data) ≠ [] := by
      intro hnil
      rw [hnil] at h4
      simp at h4
    have hidx : argmax (model (featureVector data)) < 4 := by
      have hl := argmax_lt_length (model (featureVector data)) hne
      rw [h4] at hl
      exact hl
    rw [classify_source_eq model data hne hidx]
    rfl

/-- Witness for C10 on a five-class model whose maximum sits at index 4. -/
theorem label_lookup_bounds_witness :
    4 ≤ argmax (fiveClassModel (featureVector exampleData)) ∧
    classify_source fiveClassModel exampleData = none := by
  have hge : 4 ≤ argmax (fiveClassModel (featureVector exampleData)) := by
    norm_num [fiveClassModel, argmax]
  exact ⟨hge, (label_lookup_bounds fiveClassModel exampleData).2.2 hge⟩

end AtmosTrack
